import Mathlib

/-!
Shallow embedding of the N-body engine in `src/main.ts` of the
astro-engine repository.  JavaScript numbers are idealised as real
numbers.  Source operations that `throw` are embedded in
`Except String`; plain JavaScript arithmetic (including the raw `/`
operator, which never throws in JavaScript) is total.
-/

noncomputable section

/-- Propositional test that an `Except` computation raised an error. -/
def throwsError {α : Type} : Except String α → Prop
  | .error _ => True
  | .ok _ => False

/-- Standard gravitational constant, `GRAVITATIONAL_CONSTANT` in the source. -/
def GRAVITATIONAL_CONSTANT : ℝ := 6.67430e-11

/-- The `Vector2D` class: an immutable pair of real components. -/
structure Vector2D where
  x : ℝ
  y : ℝ

instance : Inhabited Vector2D := ⟨⟨0, 0⟩⟩

namespace Vector2D

/-- `Vector2D.add`. -/
def add (a : Vector2D) (v : Vector2D) : Vector2D := ⟨a.x + v.x, a.y + v.y⟩

/-- `Vector2D.sub`. -/
def sub (a : Vector2D) (v : Vector2D) : Vector2D := ⟨a.x - v.x, a.y - v.y⟩

/-- `Vector2D.mul` (scalar multiplication). -/
def mul (a : Vector2D) (scalar : ℝ) : Vector2D := ⟨a.x * scalar, a.y * scalar⟩

/-- `Vector2D.div`: throws "Division by zero" when the scalar is exactly 0. -/
def div (a : Vector2D) (scalar : ℝ) : Except String Vector2D :=
  if scalar = 0 then .error "Division by zero"
  else .ok ⟨a.x / scalar, a.y / scalar⟩

/-- `Vector2D.magnitude`. -/
def magnitude (a : Vector2D) : ℝ := Real.sqrt (a.x * a.x + a.y * a.y)

/-- `Vector2D.normalize`: returns the zero vector when the magnitude is 0,
otherwise divides by the magnitude. -/
def normalize (a : Vector2D) : Except String Vector2D :=
  if a.magnitude = 0 then .ok ⟨0, 0⟩
  else a.div a.magnitude

/-- `Vector2D.dot`. -/
def dot (a : Vector2D) (v : Vector2D) : ℝ := a.x * v.x + a.y * v.y

/-- `Vector2D.distanceTo`. -/
def distanceTo (a : Vector2D) (v : Vector2D) : ℝ := (a.sub v).magnitude

/-- Componentwise negation, used to state Newton's third law. -/
def neg (a : Vector2D) : Vector2D := ⟨-a.x, -a.y⟩

/-- Unchecked componentwise scalar division: the value `Vector2D.div`
returns when the scalar is nonzero. -/
def divP (a : Vector2D) (scalar : ℝ) : Vector2D := ⟨a.x / scalar, a.y / scalar⟩

/-- The value `Vector2D.normalize` always returns (it never throws). -/
def normalizeP (a : Vector2D) : Vector2D :=
  if a.magnitude = 0 then ⟨0, 0⟩ else a.divP a.magnitude

end Vector2D

/-- The `Vector3D` class. -/
structure Vector3D where
  x : ℝ
  y : ℝ
  z : ℝ

instance : Inhabited Vector3D := ⟨⟨0, 0, 0⟩⟩

namespace Vector3D

/-- `Vector3D.add`. -/
def add (a : Vector3D) (v : Vector3D) : Vector3D := ⟨a.x + v.x, a.y + v.y, a.z + v.z⟩

/-- `Vector3D.sub`. -/
def sub (a : Vector3D) (v : Vector3D) : Vector3D := ⟨a.x - v.x, a.y - v.y, a.z - v.z⟩

/-- `Vector3D.mul` (scalar multiplication). -/
def mul (a : Vector3D) (scalar : ℝ) : Vector3D := ⟨a.x * scalar, a.y * scalar, a.z * scalar⟩

/-- `Vector3D.magnitude`. -/
def magnitude (a : Vector3D) : ℝ := Real.sqrt (a.x * a.x + a.y * a.y + a.z * a.z)

/-- `Vector3D.distanceTo`. -/
def distanceTo (a : Vector3D) (v : Vector3D) : ℝ := (a.sub v).magnitude

end Vector3D

/-- The `CelestialBody` interface (2D). -/
structure CelestialBody where
  id : String
  name : String
  mass : ℝ
  position : Vector2D
  velocity : Vector2D
  radius : ℝ
  color : String

instance : Inhabited CelestialBody := ⟨⟨"", "", 0, default, default, 0, ""⟩⟩

/-- The `CelestialBody3D` interface. -/
structure CelestialBody3D where
  id : String
  name : String
  mass : ℝ
  position : Vector3D
  velocity : Vector3D
  radius : ℝ
  color : String
  inclination : Option ℝ := none
  angularMomentum : Option Vector3D := none

instance : Inhabited CelestialBody3D := ⟨⟨"", "", 0, default, default, 0, "", none, none⟩⟩

/-- `calculateGravitationalForce`: scalar force magnitude `G*m1*m2/r²`,
throws when the distance is exactly 0. -/
def calculateGravitationalForce (m1 m2 distance G : ℝ) : Except String ℝ :=
  if distance = 0 then .error "Distance cannot be zero"
  else .ok (G * m1 * m2 / (distance * distance))

/-- `calculateGravitationalForceVector`: force on the object at `pos1` due
to the object at `pos2`; returns the zero vector when the positions
coincide. -/
def calculateGravitationalForceVector (m1 : ℝ) (pos1 : Vector2D) (m2 : ℝ)
    (pos2 : Vector2D) (G : ℝ) : Except String Vector2D :=
  let displacement := pos2.sub pos1
  let distance := displacement.magnitude
  if distance = 0 then .ok ⟨0, 0⟩
  else do
    let forceMagnitude ← calculateGravitationalForce m1 m2 distance G
    let forceDirection ← displacement.normalize
    .ok (forceDirection.mul forceMagnitude)

/-- The value `calculateGravitationalForceVector` always returns. -/
def forceVectorP (m1 : ℝ) (pos1 : Vector2D) (m2 : ℝ) (pos2 : Vector2D) (G : ℝ) : Vector2D :=
  let displacement := pos2.sub pos1
  let distance := displacement.magnitude
  if distance = 0 then ⟨0, 0⟩
  else (displacement.normalizeP).mul (G * m1 * m2 / (distance * distance))

/-- `calculateGravitationalForceBetweenBodies`: force experienced by
`body1` due to `body2`. -/
def calculateGravitationalForceBetweenBodies (body1 body2 : CelestialBody) (G : ℝ) :
    Except String Vector2D :=
  calculateGravitationalForceVector body1.mass body1.position body2.mass body2.position G

/-- `calculateTotalGravitationalForce`: loop over the collection, skipping
bodies whose identifier equals the target's, accumulating pairwise forces. -/
def calculateTotalGravitationalForce (targetBody : CelestialBody)
    (otherBodies : List CelestialBody) (G : ℝ) : Except String Vector2D :=
  otherBodies.foldlM
    (fun totalForce otherBody =>
      if otherBody.id = targetBody.id then pure totalForce
      else do
        let force ← calculateGravitationalForceBetweenBodies targetBody otherBody G
        pure (totalForce.add force))
    ⟨0, 0⟩

/-- The value `calculateTotalGravitationalForce` always returns. -/
def totalForceP (targetBody : CelestialBody) (otherBodies : List CelestialBody) (G : ℝ) :
    Vector2D :=
  otherBodies.foldl
    (fun totalForce otherBody =>
      if otherBody.id = targetBody.id then totalForce
      else totalForce.add
        (forceVectorP targetBody.mass targetBody.position otherBody.mass otherBody.position G))
    ⟨0, 0⟩

/-- `updateBodyEuler`: acceleration = force/mass (throws when mass is 0),
then velocity += acceleration*dt, then position += (new velocity)*dt. -/
def updateBodyEuler (body : CelestialBody) (force : Vector2D) (dt : ℝ) :
    Except String CelestialBody := do
  let acceleration ← force.div body.mass
  let velocity := body.velocity.add (acceleration.mul dt)
  let position := body.position.add (velocity.mul dt)
  pure { body with velocity := velocity, position := position }

/-- The body `updateBodyEuler` produces when the mass is nonzero:
semi-implicit Euler, the position update uses the just-updated velocity. -/
def eulerP (body : CelestialBody) (force : Vector2D) (dt : ℝ) : CelestialBody :=
  let velocity := body.velocity.add ((force.divP body.mass).mul dt)
  { body with velocity := velocity, position := body.position.add (velocity.mul dt) }

/-- The `PhysicsSimulation` class (2D driver). -/
structure PhysicsSimulation where
  bodies : List CelestialBody
  G : ℝ
  dt : ℝ
  time : ℝ
  isRunning : Bool

namespace PhysicsSimulation

/-- `PhysicsSimulation.removeBody`: `findIndex` on the identifier followed
by `splice(index, 1)`; returns whether a removal occurred, paired with the
updated driver. -/
def removeBody (sim : PhysicsSimulation) (id : String) : Bool × PhysicsSimulation :=
  match sim.bodies.findIdx? (fun body => body.id == id) with
  | some index => (true, { sim with bodies := sim.bodies.eraseIdx index })
  | none => (false, sim)

/-- `PhysicsSimulation.step`: phase 1 builds a map from body id to total
force (computed against the pre-step body list), phase 2 applies the Euler
update to every body with the force looked up by its id (zero if absent,
mirroring `forces.get(body.id) || new Vector2D(0, 0)`), then `time += dt`. -/
def step (sim : PhysicsSimulation) : Except String PhysicsSimulation := do
  let forces ← sim.bodies.foldlM
    (fun (m : String → Option Vector2D) body => do
      let totalForce ← calculateTotalGravitationalForce body sim.bodies sim.G
      pure (fun k => if k = body.id then some totalForce else m k))
    (fun _ => none)
  let newBodies ← sim.bodies.mapM
    (fun body => updateBodyEuler body ((forces body.id).getD ⟨0, 0⟩) sim.dt)
  pure { sim with bodies := newBodies, time := sim.time + sim.dt }

/-- `PhysicsSimulation.reset`: clears elapsed time and the running flag only. -/
def reset (sim : PhysicsSimulation) : PhysicsSimulation :=
  { sim with time := 0, isRunning := false }

end PhysicsSimulation

/-- The id-keyed force table phase 1 of `step` produces, built from the
pre-step body list. -/
def forceTable (bodies : List CelestialBody) (G : ℝ) : String → Option Vector2D :=
  bodies.foldl
    (fun m body => fun k => if k = body.id then some (totalForceP body bodies G) else m k)
    (fun _ => none)

/-- The `PhysicsSimulation3D` class (3D driver); only the parts the claims
are about are embedded. -/
structure PhysicsSimulation3D where
  bodies : List CelestialBody3D
  G : ℝ
  dt : ℝ
  time : ℝ
  isRunning : Bool

namespace PhysicsSimulation3D

/-- `PhysicsSimulation3D.getTotalEnergy`: kinetic term accumulated over the
bodies, potential term accumulated over index pairs `i < j` with the raw
JavaScript division `/` (total in this embedding, never a thrown error). -/
def getTotalEnergy (sim : PhysicsSimulation3D) : Except String ℝ :=
  let kineticEnergy : ℝ := sim.bodies.foldl
    (fun ke body => ke + 0.5 * body.mass * body.velocity.magnitude ^ 2) 0
  let potentialEnergy : ℝ := (List.range sim.bodies.length).foldl
    (fun pe i =>
      (List.range' (i + 1) (sim.bodies.length - (i + 1))).foldl
        (fun pe j =>
          let body1 := sim.bodies.getD i default
          let body2 := sim.bodies.getD j default
          pe - sim.G * body1.mass * body2.mass / (body1.position.distanceTo body2.position))
        pe)
    0
  .ok (kineticEnergy + potentialEnergy)

end PhysicsSimulation3D

/-- Concrete 2D body "a" at the origin, unit mass, at rest. -/
def bodyA2 : CelestialBody := ⟨"a", "A", 1, ⟨0, 0⟩, ⟨0, 0⟩, 1, "#fff"⟩

/-- Concrete 2D body "b" at `(1, 0)`, unit mass, at rest. -/
def bodyB2 : CelestialBody := ⟨"b", "B", 1, ⟨1, 0⟩, ⟨0, 0⟩, 1, "#fff"⟩

/-- Concrete 2D body "b" placed exactly at the origin, coinciding with `bodyA2`. -/
def bodyB2c : CelestialBody := ⟨"b", "B", 1, ⟨0, 0⟩, ⟨0, 0⟩, 1, "#fff"⟩

/-- Concrete 2D body with zero mass. -/
def bodyZeroMass : CelestialBody := ⟨"z", "Z", 0, ⟨0, 0⟩, ⟨0, 0⟩, 1, "#fff"⟩

/-- Concrete 2D driver whose two distinct bodies coincide at the origin. -/
def simCoincident2 : PhysicsSimulation := ⟨[bodyA2, bodyB2c], 1, 1, 0, false⟩

/-- Concrete 2D driver with two separated bodies. -/
def simSeparated2 : PhysicsSimulation := ⟨[bodyA2, bodyB2], 1, 1, 5, true⟩

/-- Concrete 3D body "a" at the origin, unit mass, at rest. -/
def bodyA3 : CelestialBody3D := ⟨"a", "A", 1, ⟨0, 0, 0⟩, ⟨0, 0, 0⟩, 1, "#fff", none, none⟩

/-- Concrete 3D body "b" at `(1, 0, 0)`, unit mass, at rest. -/
def bodyB3 : CelestialBody3D := ⟨"b", "B", 1, ⟨1, 0, 0⟩, ⟨0, 0, 0⟩, 1, "#fff", none, none⟩

/-- Concrete 3D body "b" placed exactly at the origin, coinciding with `bodyA3`. -/
def bodyB3c : CelestialBody3D := ⟨"b", "B", 1, ⟨0, 0, 0⟩, ⟨0, 0, 0⟩, 1, "#fff", none, none⟩

/-- Concrete 3D driver with two separated bodies. -/
def sim3Separated : PhysicsSimulation3D := ⟨[bodyA3, bodyB3], 1, 1, 0, false⟩

/-- Concrete 3D driver whose two distinct bodies coincide at the origin. -/
def sim3Coincident : PhysicsSimulation3D := ⟨[bodyA3, bodyB3c], 1, 1, 0, false⟩

/-- Spec-side kinetic term: sum over all bodies of `0.5 * mass * |velocity|²`. -/
def specKineticEnergy (bodies : List CelestialBody3D) : ℝ :=
  (bodies.map (fun b => 0.5 * b.mass * b.velocity.magnitude ^ 2)).sum

/-- Spec-side potential term: sum over each unordered index pair `i < j` of
`-G * mass_i * mass_j / distance(i, j)`. -/
def specPotentialEnergy (G : ℝ) (bodies : List CelestialBody3D) : ℝ :=
  ∑ i ∈ Finset.range bodies.length, ∑ j ∈ Finset.Ico (i + 1) bodies.length,
    -(G * (bodies.getD i default).mass * (bodies.getD j default).mass /
      ((bodies.getD i default).position.distanceTo (bodies.getD j default).position))

/-- The potential-energy contribution of the index pair `(i, j)` in
`getTotalEnergy`. -/
def pairTerm (sim : PhysicsSimulation3D) (i j : ℕ) : ℝ :=
  sim.G * (sim.bodies.getD i default).mass * (sim.bodies.getD j default).mass /
    ((sim.bodies.getD i default).position.distanceTo (sim.bodies.getD j default).position)

/-! Helper lemmas. -/

theorem Vector2D.magnitude_nonneg (a : Vector2D) : 0 ≤ a.magnitude :=
  Real.sqrt_nonneg _

theorem Vector2D.magnitude_eq_zero_iff (a : Vector2D) : a.magnitude = 0 ↔ a = ⟨0, 0⟩ := by
  cases a with
  | mk x y =>
    unfold Vector2D.magnitude
    constructor
    · intro h
      have h0 : x * x + y * y ≤ 0 := Real.sqrt_eq_zero'.mp h
      have hx : x * x = 0 :=
        le_antisymm (by nlinarith [mul_self_nonneg y]) (mul_self_nonneg x)
      have hy : y * y = 0 :=
        le_antisymm (by nlinarith [mul_self_nonneg x]) (mul_self_nonneg y)
      rw [Vector2D.mk.injEq]
      exact ⟨mul_self_eq_zero.mp hx, mul_self_eq_zero.mp hy⟩
    · intro h
      rw [Vector2D.mk.injEq] at h
      obtain ⟨hx, hy⟩ := h
      subst hx; subst hy
      simp

theorem Vector2D.div_ok (a : Vector2D) (s : ℝ) (h : s ≠ 0) : a.div s = .ok (a.divP s) := by
  unfold Vector2D.div Vector2D.divP
  rw [if_neg h]

theorem Vector2D.normalize_eq (a : Vector2D) : a.normalize = .ok a.normalizeP := by
  unfold Vector2D.normalize Vector2D.normalizeP
  by_cases h : a.magnitude = 0
  · rw [if_pos h, if_pos h]
  · rw [if_neg h, if_neg h, Vector2D.div_ok _ _ h]

theorem Vector2D.magnitude_normalizeP (a : Vector2D) (h : a ≠ ⟨0, 0⟩) :
    a.normalizeP.magnitude = 1 := by
  have hm : a.magnitude ≠ 0 := fun h0 => h ((Vector2D.magnitude_eq_zero_iff a).mp h0)
  have hmm : a.magnitude * a.magnitude = a.x * a.x + a.y * a.y :=
    Real.mul_self_sqrt (add_nonneg (mul_self_nonneg _) (mul_self_nonneg _))
  unfold Vector2D.normalizeP
  rw [if_neg hm]
  show Real.sqrt (a.x / a.magnitude * (a.x / a.magnitude) +
    a.y / a.magnitude * (a.y / a.magnitude)) = 1
  rw [div_mul_div_comm, div_mul_div_comm, div_add_div_same, ← hmm,
    div_self (mul_ne_zero hm hm), Real.sqrt_one]

theorem Vector2D.sub_eq_zero_iff (a b : Vector2D) : a.sub b = ⟨0, 0⟩ ↔ a = b := by
  cases a with
  | mk ax ay =>
    cases b with
    | mk bx by' =>
      unfold Vector2D.sub
      rw [Vector2D.mk.injEq, Vector2D.mk.injEq, sub_eq_zero, sub_eq_zero]

theorem Vector2D.magnitude_sub_comm (a b : Vector2D) :
    (a.sub b).magnitude = (b.sub a).magnitude := by
  unfold Vector2D.sub Vector2D.magnitude
  congr 1
  ring

theorem calculateGravitationalForce_ok (m1 m2 d G : ℝ) (h : d ≠ 0) :
    calculateGravitationalForce m1 m2 d G = .ok (G * m1 * m2 / (d * d)) := by
  unfold calculateGravitationalForce
  rw [if_neg h]

theorem forceVector_eq (m1 : ℝ) (pos1 : Vector2D) (m2 : ℝ) (pos2 : Vector2D) (G : ℝ) :
    calculateGravitationalForceVector m1 pos1 m2 pos2 G =
      .ok (forceVectorP m1 pos1 m2 pos2 G) := by
  unfold calculateGravitationalForceVector forceVectorP
  by_cases h : (pos2.sub pos1).magnitude = 0
  · simp [h]
  · simp only [h, if_false, calculateGravitationalForce_ok _ _ _ _ h,
      Vector2D.normalize_eq, if_neg h]
    rfl

theorem forceBetween_eq (b1 b2 : CelestialBody) (G : ℝ) :
    calculateGravitationalForceBetweenBodies b1 b2 G =
      .ok (forceVectorP b1.mass b1.position b2.mass b2.position G) :=
  forceVector_eq _ _ _ _ _

theorem foldlM_except_ok {α β : Type} (g : β → α → β) (F : β → α → Except String β)
    (l : List α) (hF : ∀ b a, a ∈ l → F b a = .ok (g b a)) (init : β) :
    l.foldlM F init = .ok (l.foldl g init) := by
  induction l generalizing init with
  | nil => rfl
  | cons a l ih =>
    rw [List.foldlM_cons, hF init a (List.mem_cons_self a l)]
    show l.foldlM F (g init a) = _
    rw [ih fun b x hx => hF b x (List.mem_cons_of_mem a hx), List.foldl_cons]

theorem mapM_except_ok {α β : Type} (g : α → β) (F : α → Except String β)
    (l : List α) (hF : ∀ a ∈ l, F a = .ok (g a)) :
    l.mapM F = .ok (l.map g) := by
  induction l with
  | nil => rfl
  | cons a l ih =>
    rw [List.mapM_cons, hF a (List.mem_cons_self a l),
      ih fun x hx => hF x (List.mem_cons_of_mem a hx)]
    rfl

theorem totalForce_eq (targetBody : CelestialBody) (otherBodies : List CelestialBody) (G : ℝ) :
    calculateTotalGravitationalForce targetBody otherBodies G =
      .ok (totalForceP targetBody otherBodies G) := by
  unfold calculateTotalGravitationalForce totalForceP
  refine foldlM_except_ok _ _ _ (fun b a _ => ?_) _
  by_cases h : a.id = targetBody.id
  · rw [if_pos h, if_pos h]
    rfl
  · rw [if_neg h, if_neg h, forceBetween_eq]
    rfl

theorem updateBodyEuler_ok (body : CelestialBody) (force : Vector2D) (dt : ℝ)
    (h : body.mass ≠ 0) :
    updateBodyEuler body force dt = .ok (eulerP body force dt) := by
  unfold updateBodyEuler eulerP
  rw [Vector2D.div_ok _ _ h]
  rfl

theorem updateBodyEuler_zero_mass (body : CelestialBody) (force : Vector2D) (dt : ℝ)
    (h : body.mass = 0) :
    updateBodyEuler body force dt = .error "Division by zero" := by
  unfold updateBodyEuler Vector2D.div
  rw [if_pos h]
  rfl

theorem Except.ok_bind {α β : Type} (a : α) (f : α → Except String β) :
    (Except.ok a : Except String α) >>= f = f a := rfl

theorem step_eq (sim : PhysicsSimulation) (h : ∀ b ∈ sim.bodies, b.mass ≠ 0) :
    sim.step = .ok { sim with
      bodies := sim.bodies.map (fun body =>
        eulerP body ((forceTable sim.bodies sim.G body.id).getD ⟨0, 0⟩) sim.dt),
      time := sim.time + sim.dt } := by
  have h1 : sim.bodies.foldlM
      (fun (m : String → Option Vector2D) body => do
        let totalForce ← calculateTotalGravitationalForce body sim.bodies sim.G
        pure (fun k => if k = body.id then some totalForce else m k))
      (fun _ => none) = .ok (forceTable sim.bodies sim.G) := by
    unfold forceTable
    exact foldlM_except_ok _ _ _ (fun m body _ => by rw [totalForce_eq]; rfl) _
  have h2 : sim.bodies.mapM
      (fun body => updateBodyEuler body
        ((forceTable sim.bodies sim.G body.id).getD ⟨0, 0⟩) sim.dt) =
      .ok (sim.bodies.map (fun body =>
        eulerP body ((forceTable sim.bodies sim.G body.id).getD ⟨0, 0⟩) sim.dt)) :=
    mapM_except_ok _ _ _ (fun body hb => updateBodyEuler_ok _ _ _ (h body hb))
  unfold PhysicsSimulation.step
  rw [h1]
  simp only [Except.ok_bind]
  rw [h2]
  simp only [Except.ok_bind]
  rfl

theorem findIdx?_decompAux {α : Type} (p : α → Bool) (l : List α) :
    ∀ (s i : ℕ), l.findIdx? p s = some i →
      ∃ l1 b l2, l = l1 ++ b :: l2 ∧ s + l1.length = i ∧ p b = true ∧
        ∀ b' ∈ l1, p b' = false := by
  induction l with
  | nil => intro s i h; simp at h
  | cons a l ih =>
    intro s i h
    rw [List.findIdx?_cons] at h
    by_cases hp : p a
    · rw [if_pos hp] at h
      exact ⟨[], a, l, rfl, by simpa using Option.some.inj h, hp, by simp⟩
    · rw [if_neg hp] at h
      obtain ⟨l1, b, l2, rfl, hlen, hb, hnone⟩ := ih (s + 1) i h
      refine ⟨a :: l1, b, l2, rfl, ?_, hb, ?_⟩
      · simp only [List.length_cons]; omega
      · intro b' hb'
        rcases List.mem_cons.mp hb' with rfl | h'
        · simp only [Bool.not_eq_true] at hp; exact hp
        · exact hnone b' h'

theorem eraseIdx_at_append {α : Type} (l1 : List α) (b : α) (l2 : List α) :
    (l1 ++ b :: l2).eraseIdx l1.length = l1 ++ l2 := by
  induction l1 with
  | nil => simp
  | cons a l1 ih => simp [ih]

theorem foldl_sub_eq {ι : Type} (f : ι → ℝ) (l : List ι) (init : ℝ) :
    l.foldl (fun a x => a - f x) init = init - (l.map f).sum := by
  induction l generalizing init with
  | nil => simp
  | cons a l ih =>
    simp only [List.foldl_cons, List.map_cons, List.sum_cons, ih]
    ring

theorem foldl_add_mul_eq (c : ℝ) (f g : CelestialBody3D → ℝ) (l : List CelestialBody3D)
    (init : ℝ) :
    l.foldl (fun a x => a + c * f x * g x ^ 2) init =
      init + (l.map (fun x => c * f x * g x ^ 2)).sum := by
  induction l generalizing init with
  | nil => simp
  | cons a l ih =>
    simp only [List.foldl_cons, List.map_cons, List.sum_cons, ih]
    ring

theorem sum_map_range (f : ℕ → ℝ) (n : ℕ) :
    ((List.range n).map f).sum = ∑ i ∈ Finset.range n, f i := by
  induction n with
  | zero => simp
  | succ n ih =>
    rw [List.range_succ]
    simp [ih, Finset.sum_range_succ]

theorem sum_map_range' (f : ℕ → ℝ) (n : ℕ) :
    ∀ s : ℕ, ((List.range' s n).map f).sum = ∑ i ∈ Finset.Ico s (s + n), f i := by
  induction n with
  | zero => intro s; simp
  | succ n ih =>
    intro s
    rw [List.range'_succ]
    simp only [List.map_cons, List.sum_cons, ih (s + 1)]
    rw [Finset.sum_eq_sum_Ico_succ_bot (by omega : s < s + (n + 1)),
      show s + 1 + n = s + (n + 1) from by omega]

theorem getTotalEnergy_eq (sim : PhysicsSimulation3D) :
    sim.getTotalEnergy =
      .ok (specKineticEnergy sim.bodies + specPotentialEnergy sim.G sim.bodies) := by
  have hkin : sim.bodies.foldl
      (fun ke body => ke + 0.5 * body.mass * body.velocity.magnitude ^ 2) 0
      = specKineticEnergy sim.bodies := by
    unfold specKineticEnergy
    exact (foldl_add_mul_eq 0.5 (fun b => b.mass) (fun b => b.velocity.magnitude)
      sim.bodies 0).trans (zero_add _)
  have hrow : ∀ (i : ℕ) (pe : ℝ),
      (List.range' (i + 1) (sim.bodies.length - (i + 1))).foldl
        (fun pe j =>
          let body1 := sim.bodies.getD i default
          let body2 := sim.bodies.getD j default
          pe - sim.G * body1.mass * body2.mass /
            (body1.position.distanceTo body2.position)) pe
      = pe - ((List.range' (i + 1) (sim.bodies.length - (i + 1))).map
          (pairTerm sim i)).sum :=
    fun i pe => foldl_sub_eq (pairTerm sim i) _ pe
  have hpot : (List.range sim.bodies.length).foldl
      (fun pe i =>
        (List.range' (i + 1) (sim.bodies.length - (i + 1))).foldl
          (fun pe j =>
            let body1 := sim.bodies.getD i default
            let body2 := sim.bodies.getD j default
            pe - sim.G * body1.mass * body2.mass /
              (body1.position.distanceTo body2.position)) pe) 0
      = specPotentialEnergy sim.G sim.bodies := by
    trans ((List.range sim.bodies.length).foldl
      (fun pe i => pe - ((List.range' (i + 1) (sim.bodies.length - (i + 1))).map
        (pairTerm sim i)).sum) 0)
    · exact List.foldl_ext _ _ 0 (fun pe i _ => hrow i pe)
    · rw [foldl_sub_eq, zero_sub, sum_map_range]
      have hIco : ∀ i ∈ Finset.range sim.bodies.length,
          ((List.range' (i + 1) (sim.bodies.length - (i + 1))).map (pairTerm sim i)).sum
          = ∑ j ∈ Finset.Ico (i + 1) sim.bodies.length, pairTerm sim i j := by
        intro i hi
        rw [sum_map_range' (pairTerm sim i) (sim.bodies.length - (i + 1)) (i + 1),
          show i + 1 + (sim.bodies.length - (i + 1)) = sim.bodies.length from by
            have := Finset.mem_range.mp hi; omega]
      rw [Finset.sum_congr rfl hIco]
      unfold specPotentialEnergy pairTerm
      simp [Finset.sum_neg_distrib]
  rw [← hkin, ← hpot]
  rfl

theorem forceVectorP_neg (m1 : ℝ) (p1 : Vector2D) (m2 : ℝ) (p2 : Vector2D) (G : ℝ)
    (h : p1 ≠ p2) :
    forceVectorP m2 p2 m1 p1 G = (forceVectorP m1 p1 m2 p2 G).neg := by
  have hd : (p2.sub p1).magnitude ≠ 0 := fun h0 =>
    h (((Vector2D.sub_eq_zero_iff p2 p1).mp ((Vector2D.magnitude_eq_zero_iff _).mp h0)).symm)
  have hd' : (p1.sub p2).magnitude ≠ 0 := by
    rw [Vector2D.magnitude_sub_comm]; exact hd
  unfold forceVectorP Vector2D.normalizeP
  simp only [if_neg hd, if_neg hd']
  rw [Vector2D.magnitude_sub_comm p1 p2]
  simp only [Vector2D.divP, Vector2D.mul, Vector2D.neg, Vector2D.sub, Vector2D.mk.injEq]
  constructor <;> ring

theorem totalForceP_filter (targetBody : CelestialBody) (G : ℝ) :
    ∀ (l : List CelestialBody) (acc : Vector2D),
      l.foldl
        (fun totalForce otherBody =>
          if otherBody.id = targetBody.id then totalForce
          else totalForce.add
            (forceVectorP targetBody.mass targetBody.position otherBody.mass
              otherBody.position G)) acc
      = (l.filter (fun b => b.id != targetBody.id)).foldl
          (fun acc b => acc.add
            (forceVectorP targetBody.mass targetBody.position b.mass b.position G)) acc := by
  intro l
  induction l with
  | nil => intro acc; rfl
  | cons a l ih =>
    intro acc
    by_cases h : a.id = targetBody.id
    · rw [List.foldl_cons, if_pos h, List.filter_cons_of_neg (by simp [h]), ih]
    · rw [List.foldl_cons, if_neg h,
        List.filter_cons_of_pos (by simp [bne_iff_ne]; exact h), List.foldl_cons, ih]

/-! Claim theorems. -/

/-- C2: for a body collection of nonzero masses, one call to `step` computes
the total force on every body from the pre-step positions (the force table
is built from the pre-step body list), stores the results keyed by body id,
then applies the Euler update to every body using its stored force, and
increments `time` by exactly `dt`. -/
theorem claim_C2_step_two_phase (sim : PhysicsSimulation)
    (h : ∀ b ∈ sim.bodies, b.mass ≠ 0) :
    sim.step = .ok { sim with
      bodies := sim.bodies.map (fun body =>
        eulerP body ((forceTable sim.bodies sim.G body.id).getD ⟨0, 0⟩) sim.dt),
      time := sim.time + sim.dt } :=
  step_eq sim h

/-- C2 witness: the two-phase step equation evaluated on a concrete driver
with two separated unit-mass bodies. -/
theorem claim_C2_step_two_phase_witness :
    simSeparated2.step = .ok { simSeparated2 with
      bodies := simSeparated2.bodies.map (fun body =>
        eulerP body ((forceTable simSeparated2.bodies simSeparated2.G body.id).getD ⟨0, 0⟩)
          simSeparated2.dt),
      time := simSeparated2.time + simSeparated2.dt } :=
  claim_C2_step_two_phase simSeparated2 (by
    intro b hb
    simp only [simSeparated2, List.mem_cons, List.not_mem_nil, or_false] at hb
    rcases hb with rfl | rfl <;> norm_num [bodyA2, bodyB2])

/-- C3: `updateBodyEuler` divides the force by the mass (throwing the
division-by-zero error exactly when the mass is 0), adds acceleration times
`dt` to the velocity, and then advances the position using the
just-updated velocity (semi-implicit Euler ordering). -/
theorem claim_C3_euler_semi_implicit (body : CelestialBody) (force : Vector2D) (dt : ℝ) :
    (body.mass = 0 → updateBodyEuler body force dt = .error "Division by zero") ∧
    (body.mass ≠ 0 → updateBodyEuler body force dt = .ok
      { body with
        velocity := body.velocity.add ((force.divP body.mass).mul dt),
        position := body.position.add
          ((body.velocity.add ((force.divP body.mass).mul dt)).mul dt) }) :=
  ⟨fun h => updateBodyEuler_zero_mass body force dt h,
   fun h => updateBodyEuler_ok body force dt h⟩

/-- C3 witness: the Euler update evaluated on a zero-mass body (error) and
on a unit-mass body (successful semi-implicit update). -/
theorem claim_C3_euler_semi_implicit_witness :
    updateBodyEuler bodyZeroMass ⟨1, 0⟩ 1 = .error "Division by zero" ∧
    updateBodyEuler bodyA2 ⟨1, 0⟩ 1 = .ok
      { bodyA2 with
        velocity := bodyA2.velocity.add ((Vector2D.divP ⟨1, 0⟩ bodyA2.mass).mul 1),
        position := bodyA2.position.add
          ((bodyA2.velocity.add ((Vector2D.divP ⟨1, 0⟩ bodyA2.mass).mul 1)).mul 1) } :=
  ⟨(claim_C3_euler_semi_implicit bodyZeroMass ⟨1, 0⟩ 1).1 rfl,
   (claim_C3_euler_semi_implicit bodyA2 ⟨1, 0⟩ 1).2 (by norm_num [bodyA2])⟩

/-- C4: the zero-divisor error is raised by `Vector2D.div` exactly when the
scalar is 0 and by `calculateGravitationalForce` exactly when the distance
is 0; it is never raised by `normalize`, nor by
`calculateGravitationalForceVector`, which returns the zero vector when the
two positions coincide. -/
theorem claim_C4_zero_divisor_raisers :
    (∀ (v : Vector2D) (s : ℝ), throwsError (v.div s) ↔ s = 0) ∧
    (∀ m1 m2 d G : ℝ, throwsError (calculateGravitationalForce m1 m2 d G) ↔ d = 0) ∧
    (∀ v : Vector2D, ¬ throwsError v.normalize) ∧
    (∀ (m1 : ℝ) (pos1 : Vector2D) (m2 : ℝ) (pos2 : Vector2D) (G : ℝ),
      ¬ throwsError (calculateGravitationalForceVector m1 pos1 m2 pos2 G) ∧
      (pos1 = pos2 → calculateGravitationalForceVector m1 pos1 m2 pos2 G = .ok ⟨0, 0⟩)) := by
  refine ⟨fun v s => ?_, fun m1 m2 d G => ?_, fun v => ?_, fun m1 pos1 m2 pos2 G => ⟨?_, ?_⟩⟩
  · unfold Vector2D.div
    by_cases h : s = 0 <;> simp [h, throwsError]
  · unfold calculateGravitationalForce
    by_cases h : d = 0 <;> simp [h, throwsError]
  · rw [Vector2D.normalize_eq]
    exact fun h => h
  · rw [forceVector_eq]
    exact fun h => h
  · intro h
    subst h
    unfold calculateGravitationalForceVector
    rw [if_pos]
    rw [show pos1.sub pos1 = (⟨0, 0⟩ : Vector2D) from by simp [Vector2D.sub]]
    simp [Vector2D.magnitude]

/-- C4 witness: the raising and non-raising cases evaluated on concrete
inputs. -/
theorem claim_C4_zero_divisor_raisers_witness :
    throwsError (Vector2D.div ⟨1, 2⟩ 0) ∧
    throwsError (calculateGravitationalForce 1 1 0 1) ∧
    ¬ throwsError (Vector2D.normalize ⟨0, 0⟩) ∧
    calculateGravitationalForceVector 1 ⟨2, 3⟩ 1 ⟨2, 3⟩ 1 = .ok ⟨0, 0⟩ :=
  ⟨(claim_C4_zero_divisor_raisers.1 ⟨1, 2⟩ 0).mpr rfl,
   (claim_C4_zero_divisor_raisers.2.1 1 1 0 1).mpr rfl,
   claim_C4_zero_divisor_raisers.2.2.1 ⟨0, 0⟩,
   (claim_C4_zero_divisor_raisers.2.2.2 1 ⟨2, 3⟩ 1 ⟨2, 3⟩ 1).2 rfl⟩

/-- C5: `normalize` never raises; it returns exactly the zero vector on the
zero vector and a vector of magnitude 1 on every other vector. -/
theorem claim_C5_normalize_unit (v : Vector2D) :
    ∃ w, v.normalize = .ok w ∧ (v = ⟨0, 0⟩ → w = ⟨0, 0⟩) ∧
      (v ≠ ⟨0, 0⟩ → w.magnitude = 1) := by
  refine ⟨v.normalizeP, Vector2D.normalize_eq v, fun h => ?_, fun h =>
    Vector2D.magnitude_normalizeP v h⟩
  subst h
  unfold Vector2D.normalizeP
  rw [if_pos ((Vector2D.magnitude_eq_zero_iff _).mpr rfl)]

/-- C5 witness: `normalize` evaluated on the nonzero vector `(3, 4)`. -/
theorem claim_C5_normalize_unit_witness :
    ∃ w, Vector2D.normalize ⟨3, 4⟩ = .ok w ∧ w.magnitude = 1 := by
  obtain ⟨w, h1, _, h3⟩ := claim_C5_normalize_unit ⟨3, 4⟩
  refine ⟨w, h1, h3 ?_⟩
  intro hh
  rw [Vector2D.mk.injEq] at hh
  exact absurd hh.1 (by norm_num)

/-- C6: Newton's third law — for bodies with distinct positions, the force
on A due to B is the negation of the force on B due to A. -/
theorem claim_C6_newton_third_law (A B : CelestialBody) (G : ℝ)
    (h : A.position ≠ B.position) :
    ∃ f, calculateGravitationalForceBetweenBodies A B G = .ok f ∧
      calculateGravitationalForceBetweenBodies B A G = .ok f.neg := by
  refine ⟨forceVectorP A.mass A.position B.mass B.position G, forceBetween_eq A B G, ?_⟩
  rw [forceBetween_eq B A G, forceVectorP_neg A.mass A.position B.mass B.position G h]

/-- C6 witness: the force pair evaluated on two concrete separated bodies. -/
theorem claim_C6_newton_third_law_witness :
    ∃ f, calculateGravitationalForceBetweenBodies bodyA2 bodyB2 1 = .ok f ∧
      calculateGravitationalForceBetweenBodies bodyB2 bodyA2 1 = .ok f.neg :=
  claim_C6_newton_third_law bodyA2 bodyB2 1 (by
    intro hh
    have : (0 : ℝ) = 1 := congrArg Vector2D.x hh
    norm_num at this)

/-- C7: the total gravitational force on a target sums the pairwise forces
over exactly the bodies whose identifier differs from the target's, and on
the single-element collection containing only the target it is the zero
vector. -/
theorem claim_C7_total_force_skips_self :
    (∀ (targetBody : CelestialBody) (otherBodies : List CelestialBody) (G : ℝ),
      calculateTotalGravitationalForce targetBody otherBodies G =
        .ok ((otherBodies.filter (fun b => b.id != targetBody.id)).foldl
          (fun acc b => acc.add
            (forceVectorP targetBody.mass targetBody.position b.mass b.position G))
          ⟨0, 0⟩)) ∧
    (∀ (A : CelestialBody) (G : ℝ), calculateTotalGravitationalForce A [A] G = .ok ⟨0, 0⟩) := by
  have key : ∀ (targetBody : CelestialBody) (otherBodies : List CelestialBody) (G : ℝ),
      calculateTotalGravitationalForce targetBody otherBodies G =
        .ok ((otherBodies.filter (fun b => b.id != targetBody.id)).foldl
          (fun acc b => acc.add
            (forceVectorP targetBody.mass targetBody.position b.mass b.position G))
          ⟨0, 0⟩) := by
    intro targetBody otherBodies G
    rw [totalForce_eq]
    unfold totalForceP
    rw [totalForceP_filter]
  refine ⟨key, fun A G => ?_⟩
  rw [key A [A] G]
  simp

/-- C8: `reset` zeroes the elapsed time, clears the running flag, and
leaves the body collection (hence every body's position and velocity) and
the parameters `G`, `dt` untouched. -/
theorem claim_C8_reset_partial (sim : PhysicsSimulation) :
    sim.reset.time = 0 ∧ sim.reset.isRunning = false ∧ sim.reset.bodies = sim.bodies ∧
      sim.reset.G = sim.G ∧ sim.reset.dt = sim.dt :=
  ⟨rfl, rfl, rfl, rfl, rfl⟩

/-- C10: for a body collection of nonzero masses, `step` never raises, even
when bodies coincide (the body-level force path returns zero force for
coincident positions, and the only division in a step is by the mass). -/
theorem claim_C10_step_total (sim : PhysicsSimulation)
    (h : ∀ b ∈ sim.bodies, b.mass ≠ 0) :
    ∃ sim', sim.step = .ok sim' :=
  ⟨_, step_eq sim h⟩

/-- C10 witness: `step` succeeds on a concrete driver whose two unit-mass
bodies occupy exactly the same position. -/
theorem claim_C10_step_total_witness : ∃ sim', simCoincident2.step = .ok sim' :=
  claim_C10_step_total simCoincident2 (by
    intro b hb
    simp only [simCoincident2, List.mem_cons, List.not_mem_nil, or_false] at hb
    rcases hb with rfl | rfl <;> norm_num [bodyA2, bodyB2c])

/-- C9: `removeBody` returns true exactly when some body's identifier
matches; on success it removes the first matching body and the collection
shrinks by exactly one; on failure the driver is unchanged. -/
theorem claim_C9_removeBody (sim : PhysicsSimulation) (id : String) :
    ((sim.removeBody id).1 = true ↔ ∃ b ∈ sim.bodies, b.id = id) ∧
    ((sim.removeBody id).1 = true →
      ∃ l1 b l2, sim.bodies = l1 ++ b :: l2 ∧ b.id = id ∧ (∀ b' ∈ l1, b'.id ≠ id) ∧
        (sim.removeBody id).2.bodies = l1 ++ l2 ∧
        (sim.removeBody id).2.bodies.length + 1 = sim.bodies.length) ∧
    ((sim.removeBody id).1 = false → (sim.removeBody id).2 = sim) := by
  cases hf : sim.bodies.findIdx? (fun body => body.id == id) with
  | none =>
    have hnone : ∀ b ∈ sim.bodies, (b.id == id) = false := fun b hb =>
      List.findIdx?_eq_none_iff.mp hf b hb
    have hrb : sim.removeBody id = (false, sim) := by
      unfold PhysicsSimulation.removeBody
      rw [hf]
    rw [hrb]
    refine ⟨⟨fun h => ?_, fun hex => ?_⟩, fun h => ?_, fun _ => rfl⟩
    · simp at h
    · obtain ⟨b, hb, hid⟩ := hex
      have := hnone b hb
      rw [hid] at this
      simp at this
    · simp at h
  | some i =>
    obtain ⟨l1, b, l2, heq, hlen, hb, hn⟩ := findIdx?_decompAux _ sim.bodies 0 i hf
    have hid : b.id = id := by simpa using hb
    have hi : i = l1.length := by omega
    have hrb : sim.removeBody id = (true, { sim with bodies := sim.bodies.eraseIdx i }) := by
      unfold PhysicsSimulation.removeBody
      rw [hf]
    have herase : sim.bodies.eraseIdx i = l1 ++ l2 := by
      rw [hi, heq, eraseIdx_at_append]
    rw [hrb]
    refine ⟨⟨fun _ => ⟨b, ?_, hid⟩, fun _ => rfl⟩, fun _ => ?_, fun h => ?_⟩
    · rw [heq]
      exact List.mem_append_right _ (List.mem_cons_self b l2)
    · refine ⟨l1, b, l2, heq, hid, fun b' hb' => ?_, herase, ?_⟩
      · have hfalse := hn b' hb'
        intro hcon
        rw [hcon] at hfalse
        simp at hfalse
      · show (sim.bodies.eraseIdx i).length + 1 = sim.bodies.length
        rw [herase, heq]
        simp only [List.length_append, List.length_cons]
        omega
    · simp at h

/-- C9 witness: removing the body with identifier "a" from a concrete
two-body driver succeeds and shrinks the collection by one. -/
theorem claim_C9_removeBody_witness :
    (simSeparated2.removeBody "a").1 = true ∧
    ∃ l1 b l2, simSeparated2.bodies = l1 ++ b :: l2 ∧ b.id = "a" ∧
      (∀ b' ∈ l1, b'.id ≠ "a") ∧
      (simSeparated2.removeBody "a").2.bodies = l1 ++ l2 ∧
      (simSeparated2.removeBody "a").2.bodies.length + 1 = simSeparated2.bodies.length := by
  have h := claim_C9_removeBody simSeparated2 "a"
  have ht : (simSeparated2.removeBody "a").1 = true :=
    h.1.mpr ⟨bodyA2, by simp [simSeparated2], rfl⟩
  exact ⟨ht, h.2.1 ht⟩

/-- C1 (amended): on a driver whose bodies occupy pairwise-distinct
positions, `getTotalEnergy` returns the kinetic term plus the potential
term summed once per unordered pair; it does not raise an error (the
potential loop uses the raw JavaScript division, not the throwing
helpers — see the counterexample for the coincident case). -/
theorem claim_C1_total_energy (sim : PhysicsSimulation3D)
    (_h : ∀ i j, i < j → j < sim.bodies.length →
      (sim.bodies.getD i default).position ≠ (sim.bodies.getD j default).position) :
    sim.getTotalEnergy =
      .ok (specKineticEnergy sim.bodies + specPotentialEnergy sim.G sim.bodies) :=
  getTotalEnergy_eq sim

/-- C1 witness: the energy formula evaluated on a concrete driver with two
separated bodies. -/
theorem claim_C1_total_energy_witness :
    sim3Separated.getTotalEnergy =
      .ok (specKineticEnergy sim3Separated.bodies +
        specPotentialEnergy sim3Separated.G sim3Separated.bodies) :=
  claim_C1_total_energy sim3Separated (by
    intro i j hij hj
    have hj2 : j < 2 := by simpa [sim3Separated] using hj
    interval_cases j
    · omega
    · have hi0 : i = 0 := by omega
      subst hi0
      intro hcon
      simp [sim3Separated, bodyA3, bodyB3, Vector3D.mk.injEq] at hcon)

/-- C1 counterexample: on a concrete driver whose two bodies have distinct
identifiers but exactly the same position, `getTotalEnergy` does not fail:
the claimed divide-by-zero error is never raised because the potential loop
uses the raw JavaScript `/`, which never throws. -/
theorem claim_C1_counterexample :
    (sim3Coincident.bodies.getD 0 default).id ≠ (sim3Coincident.bodies.getD 1 default).id ∧
    (sim3Coincident.bodies.getD 0 default).position =
      (sim3Coincident.bodies.getD 1 default).position ∧
    ¬ throwsError sim3Coincident.getTotalEnergy := by
  refine ⟨?_, rfl, ?_⟩
  · simp [sim3Coincident, bodyA3, bodyB3c]
  · rw [getTotalEnergy_eq]
    exact fun h => h

end
